import Mathlib

/-
Verification of the core logic of GoogleCL (import-from-google-code/googlecl).

This file gives a shallow embedding of the parts of the repository that the
claims talk about:

  * `fill_out_options` and its helpers (src/trunk/src/google.py, lines 41-86):
    the option-resolution routine.  An optparse `Values` record is embedded as
    a function from attribute names to `Val` (None / string / bool), and
    `dir(options)` as the fixed, sorted list of option names installed by
    `setup_parser` (the bound methods `ensure_value`, `read_file`,
    `read_module` that `dir` also reports are always truthy and therefore can
    never appear among the missing attributes, so they are omitted from the
    list).  External effects (config lookups, `raw_input` prompts, the file
    system, `util.read_creds`) are parameters of a `FillEnv` record, so the
    embedded function is deterministic and executable.

  * the first lines of `run_once` (google.py, lines 147-155) as
    `run_once_parse`, and its login section (lines 182-214) as
    `run_once_login` with the external collaborators (cached token, token
    validation, `util.try_login`) abstracted into a `LoginEnv`.

  * the token store (src/trunk/src/googlecl/__init__.py:
    `read_access_token`, `write_access_token`, `remove_access_token`,
    `_move_failed_token_file`).  A pickle record file is embedded as a
    sequence of loaded values: `pickle.load` reads the first pickled dict of
    the file; corruption is embedded by which exception `pickle.load` raises
    (`KeyError`/`IndexError`, `ImportError`, or anything else such as
    `UnpicklingError`), because that is the only aspect of the bytes the
    source inspects.  Python exceptions are embedded with `Except String`.

  * `safe_encode` / `safe_decode` (googlecl/__init__.py, lines 279-339) over
    an abstract `Codec` (the behaviour of the external `codecs` machinery,
    with the active error handler already applied), and `build_titles_list`
    (lines 76-95).

Python's `urllib.quote_plus` (an external library function used at
google.py line 84) is embedded per-character: characters in `always_safe`
(ASCII letters, digits, `_.-`) are kept, a space becomes `+`, and every other
byte becomes `%XX` with uppercase hex — which is exactly the composite effect
of `quote(s, safe+' ')` followed by `.replace(' ', '+')` in the Python 2
stdlib.  `os.path.expanduser` and `str.lower` are likewise embedded for the
ASCII fragment actually exercised.
-/

/-- The value of one attribute of an optparse `Values` record: Python `None`,
a string, or a boolean (only the `convert` flag is boolean). -/
inductive Val
  | vnone
  | vstr (s : String)
  | vbool (b : Bool)
deriving DecidableEq

/-- Python truthiness of an option value: `None`, `''` and `False` are falsy. -/
def Val.truthy : Val → Bool
  | .vnone => false
  | .vstr s => s != ""
  | .vbool b => b

/-- An options record: a mapping from attribute name to value. -/
abbrev Opts := String → Val

/-- `setattr(options, a, v)`. -/
def setOpt (o : Opts) (a : String) (v : Val) : Opts :=
  fun x => if x = a then v else o x

/-- Python 2 `urllib.always_safe` membership: ASCII letters, digits, `_.-`. -/
def alwaysSafe (c : Char) : Bool :=
  c.isAlpha || c.isDigit || c = '_' || c = '.' || c = '-'

/-- Uppercase hexadecimal digit, as produced by Python's `'%%%02X'` format. -/
def hexDigitChar (n : Nat) : Char :=
  if n < 10 then Char.ofNat (48 + n) else Char.ofNat (55 + n)

/-- `'%%%02X' % byte` for a byte value below 256. -/
def percentHex (n : Nat) : String :=
  ⟨['%', hexDigitChar (n / 16 % 16), hexDigitChar (n % 16)]⟩

/-- Per-character action of Python 2 `urllib.quote_plus` with the default
empty `safe` argument. -/
def quotePlusChar (c : Char) : String :=
  if c = ' ' then "+"
  else if alwaysSafe c then String.singleton c
  else percentHex c.toNat

/-- Python 2 `urllib.quote_plus(s)`: spaces become `+`, `always_safe` bytes
are kept, every other byte becomes `%XX`. -/
def quote_plus (s : String) : String :=
  String.join (s.data.map quotePlusChar)

/-- Strict RFC 3986 percent-encoding, following the specification's words
("URL-percent-encoded form"): every byte outside the unreserved set
(ASCII alphanumerics and `-._~`) becomes `%XX`; in particular a space
becomes `%20`, never `+`.  This definition follows the spec, not the source,
and exists only to be compared with `quote_plus`. -/
def spec_percent_encode (s : String) : String :=
  String.join (s.data.map (fun c =>
    if c.isAlphanum || c = '-' || c = '.' || c = '_' || c = '~'
    then String.singleton c else percentHex c.toNat))

/-- `os.path.expanduser` for the forms the code can meet: `~` alone and
`~/...` expand against the home directory; a path not starting with `~` is
returned unchanged; a `~user` form is returned unchanged (no pwd database in
the model). -/
def expanduser (home p : String) : String :=
  match p.data with
  | [] => p
  | c :: rest =>
    if c = '~' then
      match rest with
      | [] => home
      | d :: _ => if d = '/' then home ++ String.mk rest else p
    else p

/-- The external collaborators of `fill_out_options`. -/
structure FillEnv where
  /-- `util.config.getboolean('GENERAL', 'use_default_username')`. -/
  use_default_username : Bool
  /-- The email component of `util.read_creds()` (`none` embeds Python `None`). -/
  creds_email : Option String
  /-- The answer to `raw_input('Enter a username: ')`. -/
  prompt_username : String
  /-- The answer to `raw_input('Please specify <attr>: ')`, keyed by attribute. -/
  prompt : String → String
  /-- `util.get_config_option(service_header, attr)`; `none` embeds `None`. -/
  config : String → String → Option String
  /-- The file system: path to file contents, `none` when no such file exists.
  Used for both the `os.path.exists` check and the `open(...).read()`. -/
  fs : String → Option String
  /-- The home directory used by `os.path.expanduser`. -/
  home : String

/-- The aspects of a `util.Task` that `fill_out_options` consults. -/
structure GTask where
  /-- `task.requires('user')` (the one-argument membership form). -/
  requires_user : Bool
  /-- `task.requires(attr, options)` (the two-argument form, which may depend
  on the current values of other options). -/
  requires : String → Opts → Bool

/-- The attribute names installed on the options record by `setup_parser`
(google.py lines 233-279), in the sorted order `dir()` reports them. -/
def optionAttrs : List String :=
  ["blog", "cal", "category", "convert", "date", "delimiter", "devtags",
   "editor", "folder", "format", "password", "query", "summary", "tags",
   "title", "user"]

/-- `attr.strip('_') == attr`: the name neither starts nor ends with an
underscore. -/
def noUnderscoreBookends (s : String) : Bool :=
  !(s.data.head? == some '_') && !(s.data.getLast? == some '_')

/-- The `missing_attributes` list comprehension of google.py lines 73-75:
attributes without underscore bookends whose current value is falsy. -/
def missing_attributes (o : Opts) : List String :=
  optionAttrs.filter (fun a => noUnderscoreBookends a && !(o a).truthy)

/-- The `use_default_username` sub-step of google.py lines 59-62. -/
def fill_user_creds (env : FillEnv) (o : Opts) : Opts :=
  if env.use_default_username then
    match env.creds_email with
    | some e => if e != "" then setOpt o "user" (.vstr e) else o
    | none => o
  else o

/-- The username prompt of google.py lines 63-64. -/
def fill_user_prompt (env : FillEnv) (o : Opts) : Opts :=
  if !(o "user").truthy then setOpt o "user" (.vstr env.prompt_username) else o

/-- Lines 58-64 of google.py: fill in `options.user` when the task needs it. -/
def fill_user (env : FillEnv) (t : GTask) (o : Opts) (logged_in : Bool) : Opts :=
  if !logged_in && t.requires_user && !(o "user").truthy then
    fill_user_prompt env (fill_user_creds env o)
  else o

/-- Lines 66-68 of google.py: replace a summary that names an existing file by
that file's contents.  Note the source checks existence of the
tilde-expanded path but then opens the unexpanded `options.summary`; if only
the expanded path exists, the `open` raises `IOError`. -/
def fill_summary (env : FillEnv) (o : Opts) : Except String Opts :=
  match o "summary" with
  | .vstr s =>
    if s != "" then
      if (env.fs (expanduser env.home s)).isSome then
        match env.fs s with
        | some t => .ok (setOpt o "summary" (.vstr t))
        | none => .error "IOError: open failed on the unexpanded summary path"
      else .ok o
    else .ok o
  | .vbool true => .error "AttributeError: expanduser called on a non-string"
  | .vbool false => .ok o
  | .vnone => .ok o

/-- One iteration of the loop at google.py lines 76-82: if the task requires
the attribute, fill it from the config file when that yields a truthy value,
otherwise from an interactive prompt. -/
def fill_one (env : FillEnv) (t : GTask) (header : String) (o : Opts) (a : String) : Opts :=
  if t.requires a o then
    match env.config header a with
    | some v => if v != "" then setOpt o a (.vstr v)
                else setOpt o a (.vstr (env.prompt a))
    | none => setOpt o a (.vstr (env.prompt a))
  else o

/-- The whole loop at google.py lines 76-82, processing the missing
attributes in order while mutating the record. -/
def fill_missing (env : FillEnv) (t : GTask) (header : String) : List String → Opts → Opts
  | [], o => o
  | a :: rest, o => fill_missing env t header rest (fill_one env t header o a)

/-- Lines 83-86 of google.py: derive `options.encoded_query` from
`options.query` via `urllib.quote_plus`, or set it to `None`. -/
def fill_query (o : Opts) : Except String Opts :=
  match o "query" with
  | .vstr q =>
    if q != "" then .ok (setOpt o "encoded_query" (.vstr (quote_plus q)))
    else .ok (setOpt o "encoded_query" .vnone)
  | .vbool true => .error "TypeError: quote_plus called on a non-string"
  | .vbool false => .ok (setOpt o "encoded_query" .vnone)
  | .vnone => .ok (setOpt o "encoded_query" .vnone)

/-- `fill_out_options(service_header, task, options, logged_in)` of
google.py lines 41-86, composed from the step embeddings above. -/
def fill_out_options (env : FillEnv) (t : GTask) (header : String)
    (o : Opts) (logged_in : Bool) : Except String Opts :=
  match fill_summary env (fill_user env t o logged_in) with
  | .error e => .error e
  | .ok o2 => fill_query (fill_missing env t header (missing_attributes o2) o2)

/-- Project the record out of a normally-returning `fill_out_options` run
(used by concrete witnesses; the error fallback is never exercised there). -/
def okOr (r : Except String Opts) : Opts :=
  match r with
  | .ok o => o
  | .error _ => fun _ => .vnone

/-- A pickled token dictionary: service name to token. -/
abbrev TokenDict := List (String × String)

/-- Dictionary lookup (`token_dict[key]`, with `KeyError` as `none`). -/
def lookupTok : TokenDict → String → Option String
  | [], _ => none
  | (k, v) :: rest, key => if k = key then some v else lookupTok rest key

/-- Dictionary assignment `token_dict[key] = v`. -/
def setTok : TokenDict → String → String → TokenDict
  | [], key, v => [(key, v)]
  | (k, w) :: rest, key, v =>
    if k = key then (k, v) :: rest else (k, w) :: setTok rest key v

/-- Dictionary deletion `del token_dict[key]`. -/
def delTok (d : TokenDict) (key : String) : TokenDict :=
  d.filter (fun kv => kv.1 != key)

/-- `key in token_dict`. -/
def memTok (d : TokenDict) (key : String) : Bool :=
  (lookupTok d key).isSome

/-- `str.lower()` for the ASCII service names the program uses. -/
def pyLower (s : String) : String :=
  ⟨s.data.map Char.toLower⟩

/-- The contents of an `access_tok_<user>` record file, seen through
`pickle.load`.  `pickled first appended` is a well-formed file whose first
pickled object is the dict `first`; `appended` records a second dict dumped
after it (`remove_access_token` produces such files, see below) — a load
always returns `first`.  The corrupt variants record which exception
`pickle.load` raises. -/
inductive TokenFileContent
  | pickled (first : TokenDict) (appended : Option TokenDict)
  | corruptKeyIndex
  | corruptImport
  | corruptOther
deriving DecidableEq

/-- The outcome of `pickle.load` at the start of a token record file. -/
inductive LoadResult
  | ok (d : TokenDict)
  | errKeyIndex
  | errImport
  | errOther
deriving DecidableEq

/-- `pickle.load(token_file)` on a freshly-opened record file. -/
def pickleLoadFirst : TokenFileContent → LoadResult
  | .pickled d _ => .ok d
  | .corruptKeyIndex => .errKeyIndex
  | .corruptImport => .errImport
  | .corruptOther => .errOther

/-- The on-disk state the token-store functions touch: the per-user record
files `access_tok_<user>`, their `.failed` renames, and whether
`get_data_path` produced a usable (non-empty) path. -/
structure TokenStore where
  files : String → Option TokenFileContent
  failed : String → Option TokenFileContent
  pathOk : Bool

/-- Pointwise update of a user-indexed file map. -/
def updF (f : String → Option TokenFileContent) (k : String)
    (v : Option TokenFileContent) : String → Option TokenFileContent :=
  fun x => if x = k then v else f x

/-- `_move_failed_token_file` (googlecl/__init__.py lines 190-202): rename the
record aside to `<path>.failed`, deleting any previous `.failed` file.  The
filesystem operations are modelled as succeeding. -/
def move_failed_token_file (user : String) (st : TokenStore) : TokenStore :=
  { st with failed := updF st.failed user (st.files user),
            files := updF st.files user none }

/-- The tail of `write_access_token`: `token_dict[service] = token` (note the
raw, un-lowercased `service` key) and, when the path is usable, rewrite the
record file (`'wb'` truncates, so exactly one pickled dict remains). -/
def write_finish (service user token : String) (d : TokenDict)
    (st : TokenStore) : Except String TokenStore :=
  if st.pathOk then
    let f := updF st.files user (some (.pickled (setTok d service token) none))
    .ok { st with files := f }
  else .ok st

/-- `write_access_token(service, user, token)` (googlecl/__init__.py lines
342-381).  Loading an existing record tolerates `KeyError`/`IndexError` and
`ImportError` by renaming the file aside and starting fresh; any other
exception from `pickle.load` propagates. -/
def write_access_token (service user token : String)
    (st : TokenStore) : Except String TokenStore :=
  match st.files user with
  | none => write_finish service user token [] st
  | some c =>
    match pickleLoadFirst c with
    | .ok d => write_finish service user token d st
    | .errKeyIndex => write_finish service user token []
        (move_failed_token_file user st)
    | .errImport => write_finish service user token []
        (move_failed_token_file user st)
    | .errOther => .error "pickle.load raised an unhandled exception"

/-- `read_access_token(service, user)` (googlecl/__init__.py lines 205-232).
Only `ImportError` from `pickle.load` is caught (returning `None`); the dict
lookup uses `service.lower()` and maps `KeyError` to `None`. -/
def read_access_token (service user : String)
    (st : TokenStore) : Except String (Option String) :=
  match st.files user with
  | none => .ok none
  | some c =>
    match pickleLoadFirst c with
    | .ok d => .ok (lookupTok d (pyLower service))
    | .errImport => .ok none
    | .errKeyIndex => .error "pickle.load raised an unhandled exception"
    | .errOther => .error "pickle.load raised an unhandled exception"

/-- `remove_access_token(service, user)` (googlecl/__init__.py lines
245-276).  The file is opened `'r+'`; after `pickle.load` the file position
sits at the end of the first pickled dict, and the subsequent `pickle.dump`
writes there without any `seek(0)` or `truncate()`, so the updated dict is
appended after the original pickle — the first pickled object of the file is
unchanged.  Returns the `success` flag together with the new state. -/
def remove_access_token (service user : String)
    (st : TokenStore) : Except String (Bool × TokenStore) :=
  match st.files user with
  | none => .ok (false, st)
  | some c =>
    match pickleLoadFirst c with
    | .errImport => .ok (false, move_failed_token_file user st)
    | .errKeyIndex => .error "pickle.load raised an unhandled exception"
    | .errOther => .error "pickle.load raised an unhandled exception"
    | .ok d =>
      if memTok d (pyLower service) then
        let f := updF st.files user
          (some (.pickled d (some (delTok d (pyLower service)))))
        .ok (true, { st with files := f })
      else .ok (false, st)

/-- Project the store out of a normally-returning `write_access_token` run
(used by concrete witnesses). -/
def okOrStore (r : Except String TokenStore) : TokenStore :=
  match r with
  | .ok s => s
  | .error _ => { files := fun _ => none, failed := fun _ => none, pathOk := false }

/-- What the head of `run_once` (google.py lines 147-155) does with the
argument list.  `args.pop(0)` raises `IndexError` on an empty list; in that
case the handler evaluates `service == 'help'` although the local `service`
was never assigned, so an `UnboundLocalError` (a `NameError`) propagates. -/
inductive RunOnceParse
  | raisedNameError
  | printedGeneralHelp
  | printedMustSpecify
  | proceeded (service task : String) (rest : List String)
deriving DecidableEq

/-- The two leading `pop(0)` calls of `run_once` and their `IndexError`
handler. -/
def run_once_parse : List String → RunOnceParse
  | [] => .raisedNameError
  | [service] =>
    if service = "help" then .printedGeneralHelp else .printedMustSpecify
  | service :: task :: rest => .proceeded service task rest

/-- External collaborators of the login section of `run_once`. -/
structure LoginEnv where
  /-- `util.read_auth_token(service)`; `none` embeds a falsy result. -/
  cachedToken : Option String
  /-- `client.IsTokenValid()`. -/
  tokenValid : Bool
  /-- Whether `util.try_login` leaves `client.logged_in` true. -/
  loginSucceeds : Bool

/-- Observable effects of the login section of `run_once`. -/
structure LoginResult where
  loggedIn : Bool
  /-- Whether `util.write_auth_token` was called. -/
  wroteToken : Bool
  /-- Whether `util.remove_auth_token` was called. -/
  removedToken : Bool
  /-- Whether the section printed `'Failed to log on!'` and returned. -/
  loginFailedAbort : Bool
deriving DecidableEq

/-- The login section of `run_once` (google.py lines 182-214).  The client
starts with `logged_in` false; `userSupplied` is the truthiness of
`options.user`. -/
def run_once_login (loginRequired userSupplied : Bool)
    (env : LoginEnv) : LoginResult :=
  if loginRequired then
    let tokenState :=
      if !userSupplied then
        match env.cachedToken with
        | some _ => if env.tokenValid then (true, false) else (false, true)
        | none => (false, false)
      else (false, false)
    if tokenState.1 then
      { loggedIn := true, wroteToken := false,
        removedToken := tokenState.2, loginFailedAbort := false }
    else if env.loginSucceeds then
      { loggedIn := true, wroteToken := !userSupplied,
        removedToken := tokenState.2, loginFailedAbort := false }
    else
      { loggedIn := false, wroteToken := false,
        removedToken := tokenState.2, loginFailedAbort := true }
  else
    { loggedIn := false, wroteToken := false,
      removedToken := false, loginFailedAbort := false }

/-- A Python value as `safe_encode`/`safe_decode` discriminate it: a
`unicode` object, a `str` byte string, or anything else (carrying its
`str()`/`unicode()` rendering, which coincide for ints, bools, and the
like). -/
inductive PyVal
  | uni (s : String)
  | bytes (b : List Nat)
  | other (s : String)
deriving DecidableEq

/-- An encoding together with its active error handler: `decode` returns
`none` exactly when the codec raises `UnicodeDecodeError` under that
handler; `encode` is total (the default `backslashreplace` handler never
raises). -/
structure Codec where
  decode : List Nat → Option String
  encode : String → List Nat

/-- `str(x)` of a text-like value, as bytes. -/
def strToBytes (s : String) : List Nat :=
  s.data.map Char.toNat

/-- `safe_encode` (googlecl/__init__.py lines 279-308): unicode is encoded;
a byte string is returned unchanged if `target_encoding` can decode it and
`SafeEncodeError` is raised otherwise; anything else becomes `str(x)`. -/
def safe_encode (target : Codec) (x : PyVal) : Except String PyVal :=
  match x with
  | .uni s => .ok (.bytes (target.encode s))
  | .bytes b =>
    match target.decode b with
    | some _ => .ok (.bytes b)
    | none => .error "SafeEncodeError"
  | .other s => .ok (.bytes (strToBytes s))

/-- `safe_decode` (googlecl/__init__.py lines 311-339): a byte string is
decoded with `current_encoding`, raising `SafeDecodeError` when that fails
under the given error handler; unicode is returned unchanged; anything else
becomes `unicode(x)`. -/
def safe_decode (current : Codec) (x : PyVal) : Except String PyVal :=
  match x with
  | .bytes b =>
    match current.decode b with
    | some u => .ok (.uni u)
    | none => .error "SafeDecodeError"
  | .uni s => .ok (.uni s)
  | .other s => .ok (.uni s)

/-- Truthiness of `options.title` (`None` or a string). -/
def optTruthy : Option String → Bool
  | none => false
  | some s => s != ""

/-- `build_titles_list(title, args)` (googlecl/__init__.py lines 76-95).
Arguments are command-line strings; the element type is `Option String`
because the empty-`args` branch can produce `[None]`. -/
def build_titles_list (title : Option String)
    (args : List (Option String)) : List (Option String) :=
  if !args.isEmpty then
    if optTruthy title then title :: args else args
  else [title]

/-- Concrete environment for exercising `fill_out_options` (claim C1): no
config defaults, every prompt answers `"x"`, no files. -/
def wEnv : FillEnv :=
  { use_default_username := false, creds_email := none, prompt_username := "u",
    prompt := fun _ => "x", config := fun _ _ => none, fs := fun _ => none,
    home := "/h" }

/-- Concrete task requiring only `title` (claim C1). -/
def wTask : GTask := { requires_user := false, requires := fun a _ => a == "title" }

/-- A fully-unset options record. -/
def wOpts : Opts := fun _ => .vnone

/-- The record produced by running `fill_out_options` on the C1 inputs. -/
def wFinal : Opts := okOr (fill_out_options wEnv wTask "picasa" wOpts false)

/-- Environment whose file system has an empty file at path `f` (claim C6). -/
def c6Env : FillEnv :=
  { use_default_username := false, creds_email := none, prompt_username := "u",
    prompt := fun _ => "p", config := fun _ _ => none,
    fs := fun p => if p = "f" then some "" else none, home := "/h" }

/-- Concrete task requiring only `summary` (claim C6). -/
def c6Task : GTask :=
  { requires_user := false, requires := fun a _ => a == "summary" }

/-- Options with `summary` set to the path `f` (claim C6). -/
def c6Opts : Opts := fun x => if x = "summary" then .vstr "f" else .vnone

/-- Environment whose file at path `f` holds the non-empty text `T!`
(claim C6 witness). -/
def c6wEnv : FillEnv :=
  { use_default_username := false, creds_email := none, prompt_username := "u",
    prompt := fun _ => "p", config := fun _ _ => none,
    fs := fun p => if p = "f" then some "T!" else none, home := "/h" }

/-- The record produced on the C6 witness inputs. -/
def c6wFinal : Opts := okOr (fill_out_options c6wEnv c6Task "picasa" c6Opts false)

/-- Environment with no files and no config (claim C7). -/
def c7Env : FillEnv :=
  { use_default_username := false, creds_email := none, prompt_username := "u",
    prompt := fun _ => "x", config := fun _ _ => none, fs := fun _ => none,
    home := "/h" }

/-- Concrete task requiring nothing (claim C7). -/
def c7Task : GTask := { requires_user := false, requires := fun _ _ => false }

/-- Options with `query := "a b"` and every other attribute truthy, so the
prompt loop has nothing to do (claim C7). -/
def c7Opts : Opts := fun x => if x = "query" then .vstr "a b" else .vstr "z"

/-- The record produced on the C7 inputs. -/
def c7Final : Opts := okOr (fill_out_options c7Env c7Task "picasa" c7Opts false)

/-- A token store with no record files (claim C2 counterexample). -/
def emptyStore : TokenStore :=
  { files := fun _ => none, failed := fun _ => none, pathOk := true }

/-- A store whose record for user `u` already maps `docs` to a token
(claim C2 witness). -/
def c2wStore : TokenStore :=
  { files := fun u => if u = "u" then some (.pickled [("docs", "d0")] none) else none,
    failed := fun _ => none, pathOk := true }

/-- The store after the C2 witness write. -/
def c2wStoreAfter : TokenStore :=
  okOrStore (write_access_token "picasa" "u" "tok" c2wStore)

/-- A store whose record for user `u` maps `picasa` to `tok` (claim C3). -/
def c3Store : TokenStore :=
  { files := fun u => if u = "u" then some (.pickled [("picasa", "tok")] none) else none,
    failed := fun _ => none, pathOk := true }

/-- A store whose record for user `u` makes `pickle.load` raise an exception
outside the tolerated ones, e.g. `UnpicklingError` from garbage bytes
(claim C4 counterexample). -/
def c4Store : TokenStore :=
  { files := fun u => if u = "u" then some .corruptOther else none,
    failed := fun _ => none, pathOk := true }

/-- A store whose record for user `u` makes `pickle.load` raise
`ImportError` (claim C4 witness). -/
def c4wStore : TokenStore :=
  { files := fun u => if u = "u" then some .corruptImport else none,
    failed := fun _ => none, pathOk := true }

/-- A concrete codec that can decode every byte string except `[255]`
(claim C9 witness). -/
def cwCodec : Codec :=
  { decode := fun b => if b = [255] then none else some "ok",
    encode := fun s => strToBytes s }


theorem setOpt_self (o : Opts) (a : String) (v : Val) : setOpt o a v a = v := by
  simp [setOpt]

theorem setOpt_ne (o : Opts) (a : String) (v : Val) (x : String) (h : x ≠ a) :
    setOpt o a v x = o x := by
  simp [setOpt, h]

theorem truthy_vstr (s : String) : (Val.vstr s).truthy = true ↔ s ≠ "" := by
  simp [Val.truthy]

theorem fill_one_preserves (env : FillEnv) (t : GTask) (header : String)
    (o : Opts) (b x : String) (h : x ≠ b) :
    fill_one env t header o b x = o x := by
  unfold fill_one
  cases hcfg : env.config header b <;> cases hr : t.requires b o <;>
    simp [hcfg, hr, setOpt, h, ite_apply]

theorem fill_missing_not_mem (env : FillEnv) (t : GTask) (header : String) :
    ∀ (l : List String) (o : Opts) (x : String), x ∉ l →
    fill_missing env t header l o x = o x := by
  intro l
  induction l with
  | nil => intro o x _; rfl
  | cons b rest ih =>
    intro o x hx
    have h1 : x ≠ b := fun h => hx (h ▸ List.mem_cons_self b rest)
    have h2 : x ∉ rest := fun h => hx (List.mem_cons_of_mem b h)
    show fill_missing env t header rest (fill_one env t header o b) x = o x
    rw [ih _ x h2, fill_one_preserves env t header o b x h1]

theorem fill_one_truthy (env : FillEnv) (t : GTask) (header : String)
    (o : Opts) (b : String) (hp : env.prompt b ≠ "")
    (hr : t.requires b o = true) :
    (fill_one env t header o b b).truthy = true := by
  unfold fill_one
  rw [hr]
  cases hcfg : env.config header b with
  | none => simp [setOpt, Val.truthy, hp]
  | some v =>
    by_cases hv : v = ""
    · subst hv; simp [setOpt, Val.truthy, hp]
    · simp [setOpt, Val.truthy, hv, hp]

theorem fill_missing_fills (env : FillEnv) (t : GTask) (header : String) :
    ∀ (l : List String) (o : Opts), l.Nodup → (∀ x, env.prompt x ≠ "") →
    ∀ (i : Nat) (a : String), l.get? i = some a →
    t.requires a (fill_missing env t header (l.take i) o) = true →
    (fill_missing env t header l o a).truthy = true := by
  intro l
  induction l with
  | nil => intro o _ _ i a hget; simp [List.get?] at hget
  | cons b rest ih =>
    intro o hnd hp i a hget hreq
    cases i with
    | zero =>
      have hab : a = b := by
        simp [List.get?] at hget; exact hget.symm
      subst hab
      have hb : a ∉ rest := (List.nodup_cons.mp hnd).1
      show (fill_missing env t header rest (fill_one env t header o a) a).truthy = true
      rw [fill_missing_not_mem env t header rest _ a hb]
      exact fill_one_truthy env t header o a (hp a) hreq
    | succ n =>
      have hnd2 : rest.Nodup := (List.nodup_cons.mp hnd).2
      have hget2 : rest.get? n = some a := by simpa [List.get?] using hget
      exact ih (fill_one env t header o b) hnd2 hp n a hget2 hreq

theorem nodup_missing (o : Opts) : (missing_attributes o).Nodup := by
  have h : optionAttrs.Nodup := by decide
  exact h.filter _

theorem fill_user_preserves (env : FillEnv) (t : GTask) (o : Opts)
    (logged_in : Bool) (x : String) (h : x ≠ "user") :
    fill_user env t o logged_in x = o x := by
  unfold fill_user fill_user_prompt fill_user_creds
  cases henv : env.use_default_username <;>
    cases hce : env.creds_email <;>
    simp [setOpt, h, ite_apply]

theorem fill_query_preserves (o o' : Opts) (x : String)
    (hx : x ≠ "encoded_query") (hok : fill_query o = .ok o') :
    o' x = o x := by
  unfold fill_query at hok
  cases hq : o "query" <;> rw [hq] at hok
  case vnone =>
    injection hok with h; subst h; exact setOpt_ne _ _ _ _ hx
  case vstr q =>
    by_cases hq0 : q = "" <;> simp [hq0] at hok <;>
      (subst hok; exact setOpt_ne _ _ _ _ hx)
  case vbool b =>
    cases b
    · injection hok with h; subst h; exact setOpt_ne _ _ _ _ hx
    · exact absurd hok (by simp)

theorem lookupTok_setTok_same (d : TokenDict) (k v : String) :
    lookupTok (setTok d k v) k = some v := by
  induction d with
  | nil => simp [setTok, lookupTok]
  | cons kv rest ih =>
    obtain ⟨k1, w⟩ := kv
    by_cases h : k1 = k
    · subst h; simp [setTok, lookupTok]
    · simp [setTok, lookupTok, h, ih]

theorem updF_self (f : String → Option TokenFileContent) (k : String)
    (v : Option TokenFileContent) : updF f k v k = v := by
  simp [updF]

/-- Claim C5 (code bug at the empty argument list): for a single-token
argument list `run_once` behaves as described — the literal `help` prints
general help, any other token prints the must-specify message and returns
normally — but for an empty argument list the `IndexError` handler evaluates
the never-assigned local `service`, so an `UnboundLocalError` (a `NameError`)
escapes instead of the claimed message-and-normal-return. -/
theorem run_once_few_args_behavior :
    run_once_parse [] = .raisedNameError ∧
    run_once_parse ["help"] = .printedGeneralHelp ∧
    run_once_parse ["picasa"] = .printedMustSpecify :=
  ⟨rfl, by decide, by decide⟩

/-- Claim C10: `build_titles_list` always returns a non-empty list; with
non-empty `args` it returns `args` with a truthy `title` prepended (and
`args` unchanged otherwise); with empty `args` it returns `[title]`, even
when `title` is unset, yielding `[None]`. -/
theorem build_titles_list_characterization (title : Option String) :
    (∀ args : List (Option String), 1 ≤ (build_titles_list title args).length) ∧
    (∀ a as, build_titles_list title (a :: as) =
       if optTruthy title then title :: a :: as else a :: as) ∧
    build_titles_list title [] = [title] := by
  refine ⟨?_, fun a as => rfl, rfl⟩
  intro args
  cases args with
  | nil => simp [build_titles_list]
  | cons a as =>
    show 1 ≤ (if optTruthy title then title :: a :: as else a :: as).length
    cases optTruthy title <;> simp

/-- Claim C8: in the login section of `run_once`, `util.write_auth_token` is
never called when `options.user` was explicitly supplied, even when login
succeeds; and whenever it is called, no explicit user was supplied and the
login succeeded (so the client ends up logged in). -/
theorem run_once_no_token_write_for_explicit_user :
    ∀ (lr : Bool) (env : LoginEnv),
      (run_once_login lr true env).wroteToken = false ∧
      ∀ us : Bool, (run_once_login lr us env).wroteToken = true →
        us = false ∧ env.loginSucceeds = true ∧
        (run_once_login lr us env).loggedIn = true := by
  intro lr env
  constructor
  · cases lr <;> cases hls : env.loginSucceeds <;>
      simp [run_once_login, hls]
  · intro us h
    cases lr <;> cases us <;> cases hct : env.cachedToken <;>
      cases htv : env.tokenValid <;> cases hls : env.loginSucceeds <;>
      simp_all [run_once_login]

/-- Witness for claim C8 at concrete inputs: an explicitly supplied user is
never cached even though login succeeds, and a concrete run that does write
a token has no explicit user and a successful login. -/
theorem run_once_no_token_write_for_explicit_user_witness :
    (run_once_login true true
      { cachedToken := none, tokenValid := false, loginSucceeds := true }).wroteToken = false ∧
    (false = false ∧
      ({ cachedToken := none, tokenValid := false, loginSucceeds := true } : LoginEnv).loginSucceeds = true ∧
      (run_once_login true false
        { cachedToken := none, tokenValid := false, loginSucceeds := true }).loggedIn = true) :=
  ⟨(run_once_no_token_write_for_explicit_user true
      { cachedToken := none, tokenValid := false, loginSucceeds := true }).1,
   (run_once_no_token_write_for_explicit_user true
      { cachedToken := none, tokenValid := false, loginSucceeds := true }).2 false (by decide)⟩

/-- Claim C9: `safe_encode` raises `SafeEncodeError` exactly on byte strings
the target encoding cannot decode; `safe_decode` raises `SafeDecodeError`
exactly on byte strings the current encoding cannot decode under the given
error handler; and `safe_decode` is the identity on unicode input. -/
theorem safe_encode_decode_error_characterization
    (target current : Codec) (x : PyVal) :
    (safe_encode target x = .error "SafeEncodeError" ↔
       ∃ b, x = .bytes b ∧ target.decode b = none) ∧
    (safe_decode current x = .error "SafeDecodeError" ↔
       ∃ b, x = .bytes b ∧ current.decode b = none) ∧
    ∀ s, safe_decode current (.uni s) = .ok (.uni s) := by
  refine ⟨?_, ?_, fun s => rfl⟩
  · cases x with
    | uni s => simp [safe_encode]
    | other s => simp [safe_encode]
    | bytes b =>
      cases hd : target.decode b <;> simp [safe_encode, hd]
  · cases x with
    | uni s => simp [safe_decode]
    | other s => simp [safe_decode]
    | bytes b =>
      cases hd : current.decode b <;> simp [safe_decode, hd]

/-- Witness for claim C9 at a concrete codec and inputs: the undecodable byte
string `[255]` triggers both named errors, and unicode input round-trips. -/
theorem safe_encode_decode_error_characterization_witness :
    safe_encode cwCodec (.bytes [255]) = .error "SafeEncodeError" ∧
    safe_decode cwCodec (.bytes [255]) = .error "SafeDecodeError" ∧
    safe_decode cwCodec (.uni "a") = .ok (.uni "a") :=
  ⟨(safe_encode_decode_error_characterization cwCodec cwCodec (.bytes [255])).1.mpr
     ⟨[255], rfl, by decide⟩,
   (safe_encode_decode_error_characterization cwCodec cwCodec (.bytes [255])).2.1.mpr
     ⟨[255], rfl, by decide⟩,
   (safe_encode_decode_error_characterization cwCodec cwCodec (.bytes [255])).2.2 "a"⟩

/-- Claim C3 (code bug): on a store whose record for user `u` maps `picasa`
to `tok`, `remove_access_token('picasa', 'u')` reports success (`True`), yet
a following `read_access_token('picasa', 'u')` still returns `tok` rather
than the claimed absent/None — the `r+` re-dump appended the updated dict
after the original pickle instead of replacing it, and reads only ever load
the first pickle. -/
theorem remove_then_read_still_returns_token :
    (remove_access_token "picasa" "u" c3Store).map Prod.fst = Except.ok true ∧
    (remove_access_token "picasa" "u" c3Store).toOption.bind
        (fun r => (read_access_token "picasa" "u" r.2).toOption) =
      some (some "tok") :=
  ⟨rfl, rfl⟩

/-- Counterexample for claim C2 as stated: with the mixed-case service name
`Picasa`, a write followed by a read returns `None`, not the written token —
the write stores under the raw key `Picasa` while the read looks up
`picasa`. -/
theorem write_then_read_mixed_case_counterexample :
    (write_access_token "Picasa" "u" "tok" emptyStore).toOption.bind
        (fun st => (read_access_token "Picasa" "u" st).toOption) = some none ∧
    (write_access_token "Picasa" "u" "tok" emptyStore).toOption.bind
        (fun st => (read_access_token "Picasa" "u" st).toOption) ≠
      some (some "tok") :=
  ⟨rfl, by decide⟩

/-- Counterexample for claim C4 as stated: a pre-existing record whose
`pickle.load` raises an exception outside `KeyError`/`IndexError`/
`ImportError` (e.g. `UnpicklingError` from garbage bytes) makes
`write_access_token` raise instead of renaming the file aside. -/
theorem write_unpicklable_record_raises :
    write_access_token "picasa" "u" "tok" c4Store =
      .error "pickle.load raised an unhandled exception" := rfl

theorem read_after_write_finish (svc user tok : String) (d : TokenDict)
    (stb st' : TokenStore) (hpb : stb.pathOk = true)
    (hfin : write_finish svc user tok d stb = .ok st') :
    read_access_token svc user st' =
      .ok (lookupTok (setTok d svc tok) (pyLower svc)) := by
  unfold write_finish at hfin
  rw [hpb] at hfin
  simp at hfin
  subst hfin
  unfold read_access_token
  have hfv : (updF stb.files user (some (.pickled (setTok d svc tok) none))) user = some (.pickled (setTok d svc tok) none) := updF_self _ _ _
  rw [show ({ stb with files := updF stb.files user (some (.pickled (setTok d svc tok) none)) } : TokenStore).files = updF stb.files user (some (.pickled (setTok d svc tok) none)) from rfl, hfv]
  rfl

/-- Claim C2 (amended): for a service name that is already lower-case — the
write stores under the raw `service` key while the read looks up
`service.lower()` — and a usable token path, provided any pre-existing
record loads without an unhandled pickle exception (so the write returns
normally), `write_access_token(svc, user, tok)` followed by
`read_access_token(svc, user)` returns `tok`. -/
theorem write_then_read_roundtrip_lowercase (svc user tok : String)
    (st st' : TokenStore)
    (hlow : pyLower svc = svc) (hpath : st.pathOk = true)
    (hok : write_access_token svc user tok st = .ok st') :
    read_access_token svc user st' = .ok (some tok) := by
  unfold write_access_token at hok
  cases hf : st.files user with
  | none =>
    rw [hf] at hok
    rw [read_after_write_finish svc user tok [] st st' hpath hok, hlow,
        lookupTok_setTok_same]
  | some c =>
    rw [hf] at hok
    cases c with
    | pickled d app =>
      rw [read_after_write_finish svc user tok d st st' hpath hok, hlow,
          lookupTok_setTok_same]
    | corruptKeyIndex =>
      rw [read_after_write_finish svc user tok []
            (move_failed_token_file user st) st' hpath hok, hlow,
          lookupTok_setTok_same]
    | corruptImport =>
      rw [read_after_write_finish svc user tok []
            (move_failed_token_file user st) st' hpath hok, hlow,
          lookupTok_setTok_same]
    | corruptOther => simp [pickleLoadFirst] at hok

/-- Witness for the amended claim C2 at concrete inputs: writing `tok` for
`picasa` into a store that already holds a `docs` token and reading it back
yields `tok`. -/
theorem write_then_read_roundtrip_lowercase_witness :
    pyLower "picasa" = "picasa" ∧ c2wStore.pathOk = true ∧
    read_access_token "picasa" "u" c2wStoreAfter = .ok (some "tok") :=
  ⟨by decide, rfl,
   write_then_read_roundtrip_lowercase "picasa" "u" "tok" c2wStore
     c2wStoreAfter (by decide) rfl rfl⟩

/-- Claim C4 (amended): when the pre-existing record's `pickle.load` fails
with one of the tolerated exceptions — `KeyError`/`IndexError` (corruption)
or `ImportError` (foreign format) — and the token path is usable,
`write_access_token` returns normally, the bad record is renamed aside to
the `.failed` file, and a fresh record holding only the new token is
written.  (Corruption surfacing as any other exception, e.g.
`UnpicklingError`, propagates instead — see the counterexample.) -/
theorem write_tolerated_corruption_recovers (svc user tok : String)
    (st : TokenStore) (c : TokenFileContent)
    (hc : st.files user = some c)
    (hbad : c = .corruptKeyIndex ∨ c = .corruptImport)
    (hpath : st.pathOk = true) :
    ∃ st', write_access_token svc user tok st = .ok st' ∧
      st'.failed user = some c ∧
      st'.files user = some (.pickled [(svc, tok)] none) := by
  have hw : write_access_token svc user tok st =
      write_finish svc user tok [] (move_failed_token_file user st) := by
    unfold write_access_token
    rw [hc]
    rcases hbad with h | h <;> subst h <;> rfl
  have hpb : (move_failed_token_file user st).pathOk = true := hpath
  refine ⟨{ move_failed_token_file user st with files := updF (move_failed_token_file user st).files user (some (.pickled (setTok [] svc tok) none)) }, ?_, ?_, ?_⟩
  · rw [hw]
    simp [write_finish, hpb]
  · simp [move_failed_token_file, updF, hc]
  · simp [move_failed_token_file, updF, setTok]

/-- Witness for the amended claim C4 at a concrete store whose record fails
to load with `ImportError`. -/
theorem write_tolerated_corruption_recovers_witness :
    c4wStore.files "u" = some .corruptImport ∧
    (TokenFileContent.corruptImport = .corruptKeyIndex ∨
      TokenFileContent.corruptImport = .corruptImport) ∧
    c4wStore.pathOk = true ∧
    (∃ st', write_access_token "picasa" "u" "tok" c4wStore = .ok st' ∧
      st'.failed "u" = some .corruptImport ∧
      st'.files "u" = some (.pickled [("picasa", "tok")] none)) :=
  ⟨rfl, Or.inr rfl, rfl,
   write_tolerated_corruption_recovers "picasa" "u" "tok" c4wStore
     .corruptImport rfl (Or.inr rfl) rfl⟩

/-- Claim C1: when `fill_out_options` returns normally, every attribute that
entered the missing-attributes scan (underscore-free name, falsy value) and
that `task.requires(attr, options)` flagged as required at its processing
step holds a non-empty (truthy) value afterwards, provided config lookups
and interactive prompts return non-empty strings. -/
theorem fill_out_options_fills_required
    (env : FillEnv) (t : GTask) (header : String) (o : Opts) (logged_in : Bool)
    (o2 o' : Opts) (i : Nat) (a : String)
    (_hc : ∀ s x v, env.config s x = some v → v ≠ "")
    (hp : ∀ x, env.prompt x ≠ "")
    (h12 : fill_summary env (fill_user env t o logged_in) = .ok o2)
    (hok : fill_out_options env t header o logged_in = .ok o')
    (hget : (missing_attributes o2).get? i = some a)
    (hreq : t.requires a
      (fill_missing env t header ((missing_attributes o2).take i) o2) = true) :
    (o' a).truthy = true := by
  have hmem : a ∈ missing_attributes o2 := List.get?_mem hget
  have haopt : a ∈ optionAttrs := List.mem_of_mem_filter hmem
  have hane : a ≠ "encoded_query" := by
    intro h; rw [h] at haopt; exact absurd haopt (by decide)
  have hfill := fill_missing_fills env t header (missing_attributes o2) o2
      (nodup_missing o2) hp i a hget hreq
  unfold fill_out_options at hok
  rw [h12] at hok
  rw [fill_query_preserves _ o' a hane hok]
  exact hfill

/-- Witness for claim C1 at concrete inputs: with all options unset, a task
requiring `title`, no config defaults, and prompts answering `x`, the
resolved record has a truthy `title`. -/
theorem fill_out_options_fills_required_witness :
    (∀ s x v, wEnv.config s x = some v → v ≠ "") ∧
    (∀ x, wEnv.prompt x ≠ "") ∧ (wFinal "title").truthy = true := by
  have hc : ∀ s x v, wEnv.config s x = some v → v ≠ "" :=
    fun s x v h => nomatch h
  have hp : ∀ x, wEnv.prompt x ≠ "" :=
    fun x h => absurd (show ("x" : String) = "" from h) (by decide)
  exact ⟨hc, hp,
    fill_out_options_fills_required wEnv wTask "picasa" wOpts false wOpts
      wFinal 14 "title" hc hp rfl rfl (by decide) (by decide)⟩

/-- Claim C6 (amended): when the summary option holds a non-empty path with
no leading `~` that names an existing readable file with non-empty text
content `T`, and `fill_out_options` returns normally, the resolved
`options.summary` equals `T` exactly.  (For an empty file the replaced
summary is falsy and the requirement loop may overwrite it — see the
counterexample.) -/
theorem fill_out_options_summary_roundtrip
    (env : FillEnv) (t : GTask) (header : String) (o : Opts) (logged_in : Bool)
    (o' : Opts) (s T : String)
    (hs : o "summary" = .vstr s) (hsne : s ≠ "")
    (hnt : s.data.head? ≠ some '~')
    (hfs : env.fs s = some T) (hT : T ≠ "")
    (hok : fill_out_options env t header o logged_in = .ok o') :
    o' "summary" = .vstr T := by
  have h1 : fill_user env t o logged_in "summary" = .vstr s := by
    rw [fill_user_preserves env t o logged_in "summary" (by decide), hs]
  have heu : expanduser env.home s = s := by
    unfold expanduser
    cases hd : s.data with
    | nil => rfl
    | cons c rest =>
      have hcne : c ≠ '~' := by
        intro h; apply hnt; rw [hd, h]; rfl
      simp [hcne]
  have h2 : fill_summary env (fill_user env t o logged_in) =
      .ok (setOpt (fill_user env t o logged_in) "summary" (.vstr T)) := by
    unfold fill_summary
    rw [h1]
    simp [hsne, heu, hfs]
  unfold fill_out_options at hok
  rw [h2] at hok
  have hsum2 : (setOpt (fill_user env t o logged_in) "summary" (.vstr T))
      "summary" = .vstr T := setOpt_self _ _ _
  have hnm : "summary" ∉ missing_attributes
      (setOpt (fill_user env t o logged_in) "summary" (.vstr T)) := by
    intro hmem
    have hfilt := List.of_mem_filter hmem
    simp [hsum2, Val.truthy, hT] at hfilt
  have h3 : fill_missing env t header (missing_attributes
      (setOpt (fill_user env t o logged_in) "summary" (.vstr T)))
      (setOpt (fill_user env t o logged_in) "summary" (.vstr T)) "summary" =
      .vstr T := by
    rw [fill_missing_not_mem env t header _ _ "summary" hnm, hsum2]
  rw [fill_query_preserves _ o' "summary" (by decide) hok, h3]

/-- Counterexample for claim C6 as stated: the path `f` names an existing
readable file whose text content is the empty string, and the task requires
`summary`; after resolution `options.summary` is the prompt answer `p`, not
the file content `""`. -/
theorem summary_empty_file_counterexample :
    c6Opts "summary" = Val.vstr "f" ∧
    c6Env.fs "f" = some "" ∧
    (fill_out_options c6Env c6Task "picasa" c6Opts false).toOption.map
        (fun o => o "summary") = some (Val.vstr "p") ∧
    some (Val.vstr "") ≠
      (fill_out_options c6Env c6Task "picasa" c6Opts false).toOption.map
        (fun o => o "summary") :=
  ⟨rfl, by decide, by decide, by decide⟩

/-- Witness for the amended claim C6 at concrete inputs: the path `f` holds
the non-empty text `T!`, and the resolved summary is exactly `T!`. -/
theorem fill_out_options_summary_roundtrip_witness :
    c6Opts "summary" = Val.vstr "f" ∧ ("f" : String) ≠ "" ∧
    ("f" : String).data.head? ≠ some '~' ∧
    c6wEnv.fs "f" = some "T!" ∧ ("T!" : String) ≠ "" ∧
    c6wFinal "summary" = Val.vstr "T!" :=
  ⟨rfl, by decide, by decide, by decide, by decide,
   fill_out_options_summary_roundtrip c6wEnv c6Task "picasa" c6Opts false
     c6wFinal "f" "T!" rfl (by decide) (by decide) (by decide) (by decide) rfl⟩

theorem fill_query_characterization (o3 o' : Opts)
    (hok : fill_query o3 = .ok o') :
    (( o' "query").truthy = false → o' "encoded_query" = .vnone) ∧
    (∀ q, o' "query" = .vstr q → q ≠ "" →
       o' "encoded_query" = .vstr (quote_plus q)) := by
  have hqp : o' "query" = o3 "query" :=
    fill_query_preserves o3 o' "query" (by decide) hok
  unfold fill_query at hok
  cases hq : o3 "query" with
  | vnone =>
    rw [hq] at hok
    simp at hok
    subst hok
    refine ⟨fun _ => setOpt_self _ _ _, fun q hq2 hq3 => ?_⟩
    rw [hqp, hq] at hq2
    exact absurd hq2 (by simp)
  | vbool b =>
    cases b
    · rw [hq] at hok
      simp at hok
      subst hok
      refine ⟨fun _ => setOpt_self _ _ _, fun q hq2 hq3 => ?_⟩
      rw [hqp, hq] at hq2
      exact absurd hq2 (by simp)
    · rw [hq] at hok
      exact absurd hok (by simp)
  | vstr q0 =>
    rw [hq] at hok
    by_cases h0 : q0 = ""
    · subst h0
      simp at hok
      subst hok
      refine ⟨fun _ => setOpt_self _ _ _, fun q hq2 hq3 => ?_⟩
      rw [hqp, hq] at hq2
      injection hq2 with hq4
      exact absurd hq4.symm hq3
    · simp [h0] at hok
      subst hok
      constructor
      · intro htr
        rw [hqp, hq] at htr
        simp [Val.truthy, h0] at htr
      · intro q hq2 hq3
        rw [hqp, hq] at hq2
        injection hq2 with hq4
        subst hq4
        exact setOpt_self _ _ _

/-- Claim C7 (amended): after a normal `fill_out_options` run, a non-empty
resolved query yields `options.encoded_query = urllib.quote_plus(query)` —
form-urlencoding in which a space becomes `+` and other unsafe bytes become
`%XX` — and an empty or absent query yields `encoded_query = None`.  (The
original claim's strict percent-encoding, space as `%20`, is refuted by the
counterexample.) -/
theorem fill_out_options_encoded_query
    (env : FillEnv) (t : GTask) (header : String) (o : Opts)
    (logged_in : Bool) (o' : Opts)
    (hok : fill_out_options env t header o logged_in = .ok o') :
    (( o' "query").truthy = false → o' "encoded_query" = .vnone) ∧
    (∀ q, o' "query" = .vstr q → q ≠ "" →
       o' "encoded_query" = .vstr (quote_plus q)) := by
  unfold fill_out_options at hok
  cases h2 : fill_summary env (fill_user env t o logged_in) with
  | error e => rw [h2] at hok; simp at hok
  | ok o2 =>
    rw [h2] at hok
    exact fill_query_characterization _ o' hok

/-- Counterexample for claim C7 as stated: for the query `a b` the derived
field is `a+b` (`urllib.quote_plus`), which differs from the
URL-percent-encoded form `a%20b` demanded by the claim. -/
theorem encoded_query_not_percent_encoding :
    (fill_out_options c7Env c7Task "picasa" c7Opts false).toOption.map
        (fun o => o "encoded_query") = some (Val.vstr "a+b") ∧
    quote_plus "a b" = "a+b" ∧
    spec_percent_encode "a b" = "a%20b" ∧
    (fill_out_options c7Env c7Task "picasa" c7Opts false).toOption.map
        (fun o => o "encoded_query") ≠
      some (Val.vstr (spec_percent_encode "a b")) :=
  ⟨by decide, by decide, by decide, by decide⟩

/-- Witness for the amended claim C7 at concrete inputs: resolving a record
whose query is `a b` sets `encoded_query` to `quote_plus "a b"`. -/
theorem fill_out_options_encoded_query_witness :
    c7Final "query" = Val.vstr "a b" ∧ ("a b" : String) ≠ "" ∧
    c7Final "encoded_query" = Val.vstr (quote_plus "a b") :=
  ⟨by decide, by decide,
   (fill_out_options_encoded_query c7Env c7Task "picasa" c7Opts false c7Final
     rfl).2 "a b" (by decide) (by decide)⟩
